import Mathlib

/-!
Verification of the uniform multi-provider LLM invocation layer described by
the repository's documentation notebooks (config-list loading and filtering,
the uniform client `create` orchestration with response caching, fallback over
a configuration list, and usage accounting).  The repository ships only the
documentation and examples of this layer, so each component below is modelled
from the specification's description of its contract, and the claims are
settled against these models.
-/

namespace AG2

/-- A chat message: an ordered role/content pair. -/
structure Message where
  role : String
  content : String
deriving DecidableEq, Repr

/-- One candidate choice of a normalized completion: a message and a finish
reason. -/
structure Choice where
  message : Message
  finishReason : String
deriving DecidableEq, Repr

/-- Token usage counters attached to a single completion. -/
structure CompletionUsage where
  promptTokens : Nat
  completionTokens : Nat
deriving DecidableEq, Repr

/-- Modelled from the spec: a Normalized Completion (the provider-agnostic
output shape of the missing `OpenAIWrapper.create`): a sequence of candidate
choices paired with usage counters for that single call. -/
structure NormalizedCompletion where
  choices : List Choice
  usage : CompletionUsage
deriving DecidableEq, Repr

/-- Modelled from the spec: an Endpoint Configuration, one callable model
endpoint: model identifier (required), provider kind selector `api_type`
(optional, defaulting to the OpenAI-compatible kind), credential, base
address, api version, and tags used only for filtering.  The concrete
class lives in the autogen library, which is not part of this corpus. -/
structure EndpointConfig where
  model : String
  apiKey : Option String := none
  apiType : Option String := none
  baseUrl : Option String := none
  apiVersion : Option String := none
  tags : List String := []
deriving DecidableEq, Repr

/-- The provider kind declared by a configuration; defaults to the
OpenAI-compatible kind when unspecified. -/
def providerKind (c : EndpointConfig) : String :=
  c.apiType.getD "openai"

/-- Field lookup by the flat record keys recognized by the configuration
format. -/
def fieldValue (c : EndpointConfig) : String → Option String
  | "model" => some c.model
  | "api_key" => c.apiKey
  | "api_type" => c.apiType
  | "base_url" => c.baseUrl
  | "api_version" => c.apiVersion
  | _ => none

/-- A filter predicate map: each key is paired with its allowed-value set. -/
abbrev FilterDict := List (String × List String)

/-- Modelled from the spec: the retention test of the missing
`autogen.filter_config`.  An entry is retained when, for every key in the
predicate map: for the reserved "tags" key its tag set intersects the
allowed-tag set (logical OR over the listed tags), and for any other key its
field value is a member of the allowed-value set. -/
def matchesFilter (fd : FilterDict) (c : EndpointConfig) : Bool :=
  fd.all fun kv =>
    if kv.1 = "tags" then
      c.tags.any fun t => kv.2.contains t
    else
      match fieldValue c kv.1 with
      | some v => kv.2.contains v
      | none => false

/-- Modelled from the spec: the missing `autogen.filter_config`, a pure
transformation returning the subsequence of entries retained by the predicate
map. -/
def filter_config (configs : List EndpointConfig) (fd : FilterDict) :
    List EndpointConfig :=
  configs.filter (matchesFilter fd)

/-- A raw parsed configuration entry, before validation of required fields. -/
structure RawEntry where
  model : Option String := none
  apiKey : Option String := none
  apiType : Option String := none
  baseUrl : Option String := none
  apiVersion : Option String := none
  tags : List String := []
deriving DecidableEq, Repr

/-- Configuration-loading failures: the source cannot be parsed as valid
structured data, or a parsed entry is missing the required model
identifier. -/
inductive ConfigError
  | parseFailure
  | missingModel
deriving DecidableEq, Repr

/-- A configuration source: a file path, an environment-variable name, or an
already-materialized sequence of entries. -/
inductive ConfigSource
  | filePath (p : String)
  | envVar (name : String)
  | inMemory (entries : List RawEntry)
deriving DecidableEq, Repr

/-- The ambient environment a load consults: file contents by path and
environment-variable values by name. -/
structure Fs where
  files : String → Option String
  env : String → Option String

/-- A raw entry is valid when it carries a non-empty model identifier. -/
def validRaw (e : RawEntry) : Bool :=
  match e.model with
  | some m => m ≠ ""
  | none => false

/-- Promote a validated raw entry to an Endpoint Configuration. -/
def toConfig (e : RawEntry) : EndpointConfig :=
  { model := e.model.getD ""
    apiKey := e.apiKey
    apiType := e.apiType
    baseUrl := e.baseUrl
    apiVersion := e.apiVersion
    tags := e.tags }

/-- Validate every raw entry and materialize the configuration list; fails when
some entry is missing the required model identifier. -/
def validateEntries (es : List RawEntry) :
    Except ConfigError (List EndpointConfig) :=
  if es.all validRaw then .ok (es.map toConfig) else .error .missingModel

/-- The raw structured data a source denotes, given a parser for textual
sources: a file is read and parsed; an environment variable's value is first
tried as a file path and, when no such file exists, parsed as a literal
array; an in-memory sequence is already materialized. -/
def rawEntriesOf (fs : Fs) (parseText : String → Option (List RawEntry)) :
    ConfigSource → Option (List RawEntry)
  | .filePath p =>
    match fs.files p with
    | some txt => parseText txt
    | none => none
  | .envVar n =>
    match fs.env n with
    | some v =>
      match fs.files v with
      | some txt => parseText txt
      | none => parseText v
    | none => none
  | .inMemory es => some es

/-- Modelled from the spec: the missing `autogen.config_list_from_json`
loader, `load(source) -> ConfigList`: resolve the source to raw structured
data (failing with a ConfigError when it cannot be parsed) and validate that
every entry carries the required model identifier. -/
def load (fs : Fs) (parseText : String → Option (List RawEntry))
    (src : ConfigSource) : Except ConfigError (List EndpointConfig) :=
  match rawEntriesOf fs parseText src with
  | some es => validateEntries es
  | none => .error .parseFailure

/-- A failed attempt against one configuration: either its provider kind has
no registered adapter, or the provider call itself failed (with a
recoverable/non-recoverable distinction; both permit fallback to the next
configuration). -/
inductive CallFailure
  | unsupportedProvider (kind : String)
  | providerError (message : String) (recoverable : Bool)
deriving DecidableEq, Repr

/-- A successful provider response after adapter translation: the normalized
completion and its token counts. -/
structure ProviderSuccess where
  completion : NormalizedCompletion
  promptTokens : Nat
  completionTokens : Nat
deriving Repr

/-- Modelled from the spec: a provider Adapter, exposing the invocation of the
provider endpoint (build the wire request, call, parse the response into a
Normalized Completion) and the provider-specific pricing lookup
`compute_cost`. -/
structure Adapter where
  invoke : EndpointConfig → List Message → Except CallFailure ProviderSuccess
  computeCost : String → Nat → Nat → Rat

/-- Modelled from the spec: the Provider Adapter Registry,
`resolve(provider_kind) -> Adapter`, returning no adapter for an unregistered
provider kind. -/
structure World where
  resolve : String → Option Adapter

/-- Modelled from the spec: the Request Fingerprint, a deterministic key
composed of the ordered message sequence, the target model identifier, and
the caller-supplied cache seed. -/
structure Fingerprint where
  messages : List Message
  model : String
  seed : Int
deriving DecidableEq, Repr

/-- Modelled from the spec: a Cached Response, the value stored under a
Request Fingerprint: the normalized completion plus the usage counters at the
time it was generated. -/
structure CachedResponse where
  completion : NormalizedCompletion
  promptTokens : Nat
  completionTokens : Nat
  cost : Rat
deriving Repr

/-- Modelled from the spec: the Response Cache, a keyed store from Request
Fingerprints to Cached Responses. -/
abbrev Cache := List (Fingerprint × CachedResponse)

/-- Cache lookup: the most recently written entry for the fingerprint, when
one exists. -/
def cacheGet (c : Cache) (fp : Fingerprint) : Option CachedResponse :=
  (c.find? fun e => e.1 = fp).map (·.2)

/-- Cache write (last-writer-wins). -/
def cachePut (c : Cache) (fp : Fingerprint) (r : CachedResponse) : Cache :=
  (fp, r) :: c

/-- One bucket of a per-model Usage Record: call count, monetary cost, and
token counters; never decremented. -/
structure BucketCounters where
  calls : Nat := 0
  cost : Rat := 0
  promptTokens : Nat := 0
  completionTokens : Nat := 0
  totalTokens : Nat := 0
deriving DecidableEq, Repr

/-- Accumulate one call into a bucket. -/
def BucketCounters.add (b : BucketCounters) (pt ct : Nat) (c : Rat) :
    BucketCounters :=
  { calls := b.calls + 1
    cost := b.cost + c
    promptTokens := b.promptTokens + pt
    completionTokens := b.completionTokens + ct
    totalTokens := b.totalTokens + (pt + ct) }

/-- A per-model Usage Record, split into actual (cache-miss) and cached
(cache-hit) buckets. -/
structure ModelUsage where
  actual : BucketCounters := {}
  cached : BucketCounters := {}
deriving DecidableEq, Repr

/-- The bucket selector of the Usage Ledger's `record` operation. -/
inductive Bucket
  | actual
  | cached
deriving DecidableEq, Repr

/-- Accumulate one call into the selected bucket of a Usage Record. -/
def ModelUsage.record (u : ModelUsage) (b : Bucket) (pt ct : Nat) (c : Rat) :
    ModelUsage :=
  match b with
  | .actual => { u with actual := u.actual.add pt ct c }
  | .cached => { u with cached := u.cached.add pt ct c }

/-- Modelled from the spec: the Usage Ledger, token and cost counters keyed by
model. -/
abbrev Ledger := List (String × ModelUsage)

/-- Modelled from the spec: the Usage Ledger's
`record(model, bucket, prompt_tokens, completion_tokens, cost)` operation. -/
def recordUsage (l : Ledger) (m : String) (b : Bucket) (pt ct : Nat)
    (c : Rat) : Ledger :=
  match l with
  | [] => [(m, ModelUsage.record {} b pt ct c)]
  | (m', u) :: rest =>
    if m' = m then (m', u.record b pt ct c) :: rest
    else (m', u) :: recordUsage rest m b pt ct c

/-- Summary: total cost across all models and both buckets. -/
def totalCost (l : Ledger) : Rat :=
  (l.map fun e => e.2.actual.cost + e.2.cached.cost).sum

/-- Summary: cost attributable only to the actual (non-cached) bucket. -/
def actualCost (l : Ledger) : Rat :=
  (l.map fun e => e.2.actual.cost).sum

/-- Summary helper: cost attributable only to the cached bucket. -/
def cachedCost (l : Ledger) : Rat :=
  (l.map fun e => e.2.cached.cost).sum

/-- The state owned by a Uniform Client: its Config List (created once,
never mutated), its Response Cache, and its Usage Ledger. -/
structure ClientState where
  configs : List EndpointConfig
  cache : Cache
  ledger : Ledger
deriving Repr

/-- The failure surfaced by `create` when every configuration in the list has
been exhausted without success, carrying the last underlying failure. -/
inductive CreateError
  | allProvidersExhausted (last : Option CallFailure)
deriving DecidableEq, Repr

/-- The observable outcome of one `create` call: the result, the successor
client state, how many provider calls were made, the models tried in order,
and whether the result was served from the cache. -/
structure CreateResult where
  result : Except CreateError NormalizedCompletion
  state : ClientState
  providerCalls : Nat
  tried : List String
  servedFromCache : Bool

/-- The intermediate outcome of the fallback loop. -/
structure StepResult where
  result : Except CreateError NormalizedCompletion
  cache : Cache
  ledger : Ledger
  providerCalls : Nat
  tried : List String
  servedFromCache : Bool

/-- Modelled from the spec: the fallback loop of the missing
`OpenAIWrapper.create`.  For each configuration in list order: compute the
fingerprint; when caching is enabled, return a cache hit immediately after
recording cached-bucket usage; otherwise resolve the adapter and invoke the
provider; on success record actual-bucket usage, store the entry in the cache
(when caching is enabled) and return; on any failure remember it and advance
to the next configuration; when the list is exhausted fail with an
AllProvidersExhaustedError carrying the last underlying failure. -/
def createLoop (world : World) (messages : List Message) (seed : Option Int)
    (cache : Cache) (ledger : Ledger) (lastErr : Option CallFailure)
    (calls : Nat) (tried : List String) :
    List EndpointConfig → StepResult
  | [] =>
    ⟨.error (.allProvidersExhausted lastErr), cache, ledger, calls, tried,
      false⟩
  | cfg :: rest =>
    let onMiss : StepResult :=
      match world.resolve (providerKind cfg) with
      | none =>
        createLoop world messages seed cache ledger
          (some (.unsupportedProvider (providerKind cfg))) calls
          (tried ++ [cfg.model]) rest
      | some ad =>
        match ad.invoke cfg messages with
        | .error e =>
          createLoop world messages seed cache ledger (some e) (calls + 1)
            (tried ++ [cfg.model]) rest
        | .ok s =>
          let c := ad.computeCost cfg.model s.promptTokens s.completionTokens
          let ledger' :=
            recordUsage ledger cfg.model .actual s.promptTokens
              s.completionTokens c
          let cache' :=
            match seed with
            | none => cache
            | some sd =>
              cachePut cache ⟨messages, cfg.model, sd⟩
                ⟨s.completion, s.promptTokens, s.completionTokens, c⟩
          ⟨.ok s.completion, cache', ledger', calls + 1,
            tried ++ [cfg.model], false⟩
    match seed with
    | none => onMiss
    | some sd =>
      match cacheGet cache ⟨messages, cfg.model, sd⟩ with
      | some r =>
        let ledger' :=
          recordUsage ledger cfg.model .cached r.promptTokens
            r.completionTokens r.cost
        ⟨.ok r.completion, cache, ledger', calls, tried ++ [cfg.model], true⟩
      | none => onMiss

/-- Modelled from the spec: the missing `OpenAIWrapper.create`:
`create(messages, parameters, cache_seed) -> CompletionResult`, running the
fallback loop over the client's Config List from the first entry. -/
def create (world : World) (messages : List Message) (seed : Option Int)
    (st : ClientState) : CreateResult :=
  let r := createLoop world messages seed st.cache st.ledger none 0 []
    st.configs
  ⟨r.result, ⟨st.configs, r.cache, r.ledger⟩, r.providerCalls, r.tried,
    r.servedFromCache⟩

/-- A session: a sequence of `create` calls threaded through the client
state; returns the final state and, per call, whether it was served from the
cache. -/
def runSession (world : World) (st : ClientState) :
    List (List Message × Option Int) → ClientState × List Bool
  | [] => (st, [])
  | (msgs, seed) :: rest =>
    let r := create world msgs seed st
    ((runSession world r.state rest).1,
      r.servedFromCache :: (runSession world r.state rest).2)

/-- The failure one configuration produces against a given world, when it
fails: no registered adapter for its provider kind, or the provider call's
error; `none` when the provider call succeeds. -/
def callFailure (world : World) (cfg : EndpointConfig)
    (msgs : List Message) : Option CallFailure :=
  match world.resolve (providerKind cfg) with
  | none => some (.unsupportedProvider (providerKind cfg))
  | some ad =>
    match ad.invoke cfg msgs with
    | .error e => some e
    | .ok _ => none

/-- The last underlying failure accumulated by the fallback loop over a
configuration list, starting from a previously remembered failure. -/
def lastFailure (world : World) (msgs : List Message) :
    Option CallFailure → List EndpointConfig → Option CallFailure
  | le, [] => le
  | le, cfg :: rest =>
    lastFailure world msgs
      (match callFailure world cfg msgs with
       | some e => some e
       | none => le) rest

/-! ### Concrete fixtures, mirroring the notebook examples, used to evaluate
the theorems on closed inputs -/

/-- The joke completion returned in the notebook's first example. -/
def demoCompletion : NormalizedCompletion :=
  ⟨[⟨⟨"assistant", "Because it was two-tired!"⟩, "stop"⟩], ⟨9, 32⟩⟩

/-- An adapter whose provider always succeeds with the demo completion. -/
def demoAdapter : Adapter :=
  ⟨fun _ _ => .ok ⟨demoCompletion, 9, 32⟩,
   fun _ pt ct => ((pt + ct : Nat) : Rat) / 1000⟩

/-- An adapter whose provider always fails with a recoverable rate limit. -/
def failAdapter : Adapter :=
  ⟨fun _ _ => .error (.providerError "rate limit" true), fun _ _ _ => 0⟩

/-- A registry that resolves every provider kind to the demo adapter. -/
def demoWorld : World := ⟨fun _ => some demoAdapter⟩

/-- A registry where azure-style endpoints fail and the rest succeed. -/
def mixedWorld : World :=
  ⟨fun k => if k = "azure" then some failAdapter else some demoAdapter⟩

/-- A registry where every provider fails. -/
def failWorld : World := ⟨fun _ => some failAdapter⟩

/-- The configuration used by the notebook's first call. -/
def demoConfig : EndpointConfig := { model := "gpt-35-turbo-1106" }

/-- An azure-style configuration (fails under `mixedWorld`). -/
def cfgA : EndpointConfig := { model := "A", apiType := some "azure" }

/-- An OpenAI-compatible configuration (succeeds under `mixedWorld`). -/
def cfgB : EndpointConfig := { model := "B" }

/-- The message list of the notebook's example call. -/
def demoMessages : List Message := [⟨"user", "Tell me a joke."⟩]

/-- A raw entry carrying a model identifier. -/
def demoRaw : RawEntry := { model := some "gpt-4" }

/-- A toy parser for the serialized form used in the fixtures. -/
def demoParse : String → Option (List RawEntry) :=
  fun s => if s = "[model=gpt-4]" then some [demoRaw] else none

/-- An environment in which the variable OAI_CONFIG_LIST points at a file
holding the serialized list. -/
def demoFs : Fs :=
  ⟨fun p => if p = "/cfg/list" then some "[model=gpt-4]" else none,
   fun n => if n = "OAI_CONFIG_LIST" then some "/cfg/list" else none⟩

/-- The tagged gpt-4 deployment of the notebook's tags example. -/
def tagCfgGpt : EndpointConfig :=
  { model := "my-gpt-4-deployment", apiKey := some ""
    tags := ["gpt4", "openai"] }

/-- The tagged local llama endpoint of the notebook's tags example. -/
def tagCfgLlama : EndpointConfig :=
  { model := "llama-7B", baseUrl := some "http://127.0.0.1:8080"
    tags := ["llama", "local"] }

end AG2

namespace AG2

/-! ## General lemmas about the embedded operations -/

theorem matchesFilter_nil (c : EndpointConfig) : matchesFilter [] c = true := by
  simp [matchesFilter]

theorem filter_config_nil_dict (L : List EndpointConfig) :
    filter_config L [] = L := by
  simp [filter_config, matchesFilter]

theorem matchesFilter_tags_singleton (S : List String) (c : EndpointConfig) :
    matchesFilter [("tags", S)] c = c.tags.any fun t => S.contains t := by
  simp [matchesFilter]

theorem lastFailure_eq_getLast (world : World) (msgs : List Message)
    (cfgs : List EndpointConfig) :
    ∀ (le : Option CallFailure) (clast : EndpointConfig),
      cfgs.getLast? = some clast →
      (∀ cfg ∈ cfgs, (callFailure world cfg msgs).isSome = true) →
      lastFailure world msgs le cfgs = callFailure world clast msgs := by
  induction cfgs with
  | nil => intro le clast h _; simp at h
  | cons c rest ih =>
    intro le clast h hall
    cases rest with
    | nil =>
      simp at h
      subst h
      obtain ⟨e, he⟩ := Option.isSome_iff_exists.mp (hall c (by simp))
      simp [lastFailure, he]
    | cons c2 rest2 =>
      rw [List.getLast?_cons_cons] at h
      rw [lastFailure]
      exact ih _ clast h fun cfg hc => hall cfg (List.mem_cons_of_mem c hc)

theorem createLoop_all_fail (world : World) (msgs : List Message)
    (seed : Option Int) (cfgs : List EndpointConfig) :
    ∀ (cache : Cache) (ledger : Ledger) (le : Option CallFailure)
      (calls : Nat) (tried : List String),
      (∀ cfg ∈ cfgs, (callFailure world cfg msgs).isSome = true) →
      (∀ cfg ∈ cfgs, ∀ sd, seed = some sd →
        cacheGet cache ⟨msgs, cfg.model, sd⟩ = none) →
      (createLoop world msgs seed cache ledger le calls tried cfgs).result =
          .error (.allProvidersExhausted (lastFailure world msgs le cfgs)) ∧
        (createLoop world msgs seed cache ledger le calls tried cfgs).cache =
          cache ∧
        (createLoop world msgs seed cache ledger le calls tried cfgs).ledger =
          ledger ∧
        (createLoop world msgs seed cache ledger le calls
            tried cfgs).servedFromCache = false := by
  induction cfgs with
  | nil => intro cache ledger le calls tried _ _; simp [createLoop, lastFailure]
  | cons cfg rest ih =>
    intro cache ledger le calls tried hf hc
    have hfc := hf cfg (by simp)
    have hrest : ∀ c ∈ rest, (callFailure world c msgs).isSome = true :=
      fun c hm => hf c (List.mem_cons_of_mem cfg hm)
    have hcrest : ∀ c ∈ rest, ∀ sd, seed = some sd →
        cacheGet cache ⟨msgs, c.model, sd⟩ = none :=
      fun c hm => hc c (List.mem_cons_of_mem cfg hm)
    have hmiss : ∀ sd, seed = some sd →
        cacheGet cache ⟨msgs, cfg.model, sd⟩ = none :=
      hc cfg (by simp)
    cases hres : world.resolve (providerKind cfg) with
    | none =>
      have hlf : lastFailure world msgs le (cfg :: rest) =
          lastFailure world msgs
            (some (.unsupportedProvider (providerKind cfg))) rest := by
        rw [lastFailure]
        simp [callFailure, hres]
      cases seed with
      | none =>
        rw [hlf]
        simpa [createLoop, hres] using ih cache ledger
          (some (.unsupportedProvider (providerKind cfg))) calls
          (tried ++ [cfg.model]) hrest hcrest
      | some sd =>
        rw [hlf]
        simpa [createLoop, hres, hmiss sd rfl] using ih cache ledger
          (some (.unsupportedProvider (providerKind cfg))) calls
          (tried ++ [cfg.model]) hrest hcrest
    | some ad =>
      cases hinv : ad.invoke cfg msgs with
      | error e =>
        have hlf : lastFailure world msgs le (cfg :: rest) =
            lastFailure world msgs (some e) rest := by
          rw [lastFailure]
          simp [callFailure, hres, hinv]
        cases seed with
        | none =>
          rw [hlf]
          simpa [createLoop, hres, hinv] using ih cache ledger (some e)
            (calls + 1) (tried ++ [cfg.model]) hrest hcrest
        | some sd =>
          rw [hlf]
          simpa [createLoop, hres, hinv, hmiss sd rfl] using ih cache ledger
            (some e) (calls + 1) (tried ++ [cfg.model]) hrest hcrest
      | ok s =>
        exfalso
        simp [callFailure, hres, hinv] at hfc

theorem createLoop_seed_none_cache (world : World) (msgs : List Message)
    (cfgs : List EndpointConfig) :
    ∀ (cache : Cache) (ledger : Ledger) (le : Option CallFailure)
      (calls : Nat) (tried : List String),
      (createLoop world msgs none cache ledger le calls tried cfgs).cache =
        cache := by
  induction cfgs with
  | nil => intro cache ledger le calls tried; simp [createLoop]
  | cons cfg rest ih =>
    intro cache ledger le calls tried
    cases hres : world.resolve (providerKind cfg) with
    | none => simpa [createLoop, hres] using ih cache ledger _ calls _
    | some ad =>
      cases hinv : ad.invoke cfg msgs with
      | error e => simpa [createLoop, hres, hinv] using ih cache ledger _ _ _
      | ok s => simp [createLoop, hres, hinv]

theorem totalCost_eq_actual_add_cached (l : Ledger) :
    totalCost l = actualCost l + cachedCost l := by
  induction l with
  | nil => simp [totalCost, actualCost, cachedCost]
  | cons e tl ih =>
    simp only [totalCost, actualCost, cachedCost, List.map_cons,
      List.sum_cons] at ih ⊢
    rw [ih]
    ring

theorem cachedCost_recordUsage_actual (l : Ledger) (m : String)
    (pt ct : Nat) (c : Rat) :
    cachedCost (recordUsage l m .actual pt ct c) = cachedCost l := by
  induction l with
  | nil => simp [recordUsage, cachedCost, ModelUsage.record]
  | cons e tl ih =>
    obtain ⟨m', u⟩ := e
    by_cases h : m' = m
    · simp [recordUsage, h, cachedCost, ModelUsage.record]
    · simp only [recordUsage, h, if_false, cachedCost, List.map_cons,
        List.sum_cons] at ih ⊢
      rw [ih]

theorem createLoop_miss_cachedCost (world : World) (msgs : List Message)
    (seed : Option Int) (cfgs : List EndpointConfig) :
    ∀ (cache : Cache) (ledger : Ledger) (le : Option CallFailure)
      (calls : Nat) (tried : List String),
      (createLoop world msgs seed cache ledger le calls
          tried cfgs).servedFromCache = false →
      cachedCost
          (createLoop world msgs seed cache ledger le calls tried cfgs).ledger
        = cachedCost ledger := by
  induction cfgs with
  | nil => intro cache ledger le calls tried _; simp [createLoop]
  | cons cfg rest ih =>
    intro cache ledger le calls tried h
    cases seed with
    | none =>
      cases hres : world.resolve (providerKind cfg) with
      | none =>
        simp only [createLoop, hres] at h ⊢
        exact ih cache ledger _ calls _ h
      | some ad =>
        cases hinv : ad.invoke cfg msgs with
        | error e =>
          simp only [createLoop, hres, hinv] at h ⊢
          exact ih cache ledger _ _ _ h
        | ok s =>
          simp [createLoop, hres, hinv, cachedCost_recordUsage_actual]
    | some sd =>
      cases hget : cacheGet cache ⟨msgs, cfg.model, sd⟩ with
      | some r => simp [createLoop, hget] at h
      | none =>
        cases hres : world.resolve (providerKind cfg) with
        | none =>
          simp only [createLoop, hget, hres] at h ⊢
          exact ih cache ledger _ calls _ h
        | some ad =>
          cases hinv : ad.invoke cfg msgs with
          | error e =>
            simp only [createLoop, hget, hres, hinv] at h ⊢
            exact ih cache ledger _ _ _ h
          | ok s =>
            simp [createLoop, hget, hres, hinv,
              cachedCost_recordUsage_actual]

theorem create_miss_cachedCost (world : World) (msgs : List Message)
    (seed : Option Int) (st : ClientState)
    (h : (create world msgs seed st).servedFromCache = false) :
    cachedCost (create world msgs seed st).state.ledger =
      cachedCost st.ledger := by
  simp only [create] at h ⊢
  exact createLoop_miss_cachedCost world msgs seed st.configs st.cache
    st.ledger none 0 [] h

theorem runSession_all_miss_cachedCost (world : World)
    (cls : List (List Message × Option Int)) :
    ∀ st : ClientState,
      (∀ b ∈ (runSession world st cls).2, b = false) →
      cachedCost (runSession world st cls).1.ledger =
        cachedCost st.ledger := by
  induction cls with
  | nil => intro st _; simp [runSession]
  | cons c rest ih =>
    intro st h
    obtain ⟨msgs, seed⟩ := c
    simp only [runSession, List.mem_cons, forall_eq_or_imp] at h ⊢
    rw [ih (create world msgs seed st).state h.2]
    exact create_miss_cachedCost world msgs seed st h.1

/-! ## Claims about the Config Store -/

/-- C6: filtering a config list by the reserved "tags" key with allowed-tag
set `S` returns exactly the entries whose tag set has a non-empty
intersection with `S` (union/OR semantics over the listed tags, not
intersection/AND). -/
theorem filter_config_tags_union (configs : List EndpointConfig)
    (S : List String) :
    (filter_config configs [("tags", S)] =
      configs.filter fun c => c.tags.any fun t => S.contains t) ∧
    ∀ fd : FilterDict, ("tags", S) ∈ fd →
      ∀ c ∈ filter_config configs fd,
        (c.tags.any fun t => S.contains t) = true := by
  constructor
  · unfold filter_config
    apply List.filter_congr
    intro c _
    exact matchesFilter_tags_singleton S c
  · intro fd hfd c hc
    have hm := (List.mem_filter.mp hc).2
    have hkv := List.all_eq_true.mp hm ("tags", S) hfd
    simpa using hkv

/-- C6 witness: the notebook's tags example: filtering the two tagged
configurations by tags ["llama", "another_tag"] retains exactly the llama
entry, whose tag set meets the allowed set. -/
theorem filter_config_tags_union_witness :
    ("tags", ["llama", "another_tag"]) ∈
        [("tags", ["llama", "another_tag"])] ∧
      tagCfgLlama ∈ filter_config [tagCfgGpt, tagCfgLlama]
        [("tags", ["llama", "another_tag"])] ∧
      (tagCfgLlama.tags.any fun t =>
        List.contains ["llama", "another_tag"] t) = true :=
  ⟨by decide, by decide,
    (filter_config_tags_union [tagCfgGpt, tagCfgLlama]
        ["llama", "another_tag"]).2
      [("tags", ["llama", "another_tag"])] (by decide) tagCfgLlama
      (by decide)⟩

/-- C7: for a configuration source that loads successfully to a non-empty
configuration list, filtering with an empty predicate map returns the full
sequence unchanged and in the original order. -/
theorem load_empty_filter_identity (fs : Fs)
    (parseText : String → Option (List RawEntry)) (src : ConfigSource)
    (L : List EndpointConfig) (hload : load fs parseText src = .ok L)
    (hne : L ≠ []) : filter_config L [] = L :=
  filter_config_nil_dict L

/-- C7 witness: a concrete load through the environment variable succeeds
with a non-empty list, on which the empty filter is the identity. -/
theorem load_empty_filter_identity_witness :
    load demoFs demoParse (ConfigSource.envVar "OAI_CONFIG_LIST") =
        .ok [toConfig demoRaw] ∧
      [toConfig demoRaw] ≠ [] ∧
      filter_config [toConfig demoRaw] [] = [toConfig demoRaw] :=
  ⟨rfl, by simp,
    load_empty_filter_identity demoFs demoParse
      (ConfigSource.envVar "OAI_CONFIG_LIST") [toConfig demoRaw] rfl
      (by simp)⟩

/-- C8: `load` fails with a ConfigError exactly when the source cannot be
resolved and parsed as structured data or some parsed entry is missing the
required model identifier; otherwise it returns the parsed sequence.  An
environment-variable source resolves by first trying the variable's value as
a file path and, when no such file exists, parsing the value as a literal
array. -/
theorem load_config_error_iff (fs : Fs)
    (parseText : String → Option (List RawEntry)) (src : ConfigSource) :
    ((∃ e, load fs parseText src = .error e) ↔
      rawEntriesOf fs parseText src = none ∨
        ∃ es, rawEntriesOf fs parseText src = some es ∧
          es.all validRaw = false) ∧
    (∀ es, rawEntriesOf fs parseText src = some es →
      es.all validRaw = true → load fs parseText src = .ok (es.map toConfig)) ∧
    (∀ n v, src = ConfigSource.envVar n → fs.env n = some v →
      (∀ txt, fs.files v = some txt →
        rawEntriesOf fs parseText src = parseText txt) ∧
      (fs.files v = none → rawEntriesOf fs parseText src = parseText v)) := by
  refine ⟨?_, ?_, ?_⟩
  · cases hraw : rawEntriesOf fs parseText src with
    | none => simp [load, hraw]
    | some es =>
      by_cases hall : es.all validRaw = true
      · simp [load, hraw, validateEntries, hall]
        exact List.all_eq_true.mp hall
      · simp only [Bool.not_eq_true] at hall
        simp [load, hraw, validateEntries, hall]
        simpa using List.all_eq_false.mp hall
  · intro es hraw hall
    simp [load, hraw, validateEntries, hall]
  · intro n v hsrc henv
    subst hsrc
    constructor
    · intro txt hf
      simp [rawEntriesOf, henv, hf]
    · intro hf
      simp [rawEntriesOf, henv, hf]

/-! ## Claims about the Uniform Client -/

/-- C1: with one configuration whose provider deterministically succeeds and
caching enabled, two successive identical `create` calls from a fresh state
return the identical Normalized Completion; the first call makes one provider
call and increments only the actual bucket, the second makes no provider
call, is served from the cache, and increments only the cached bucket. -/
theorem create_cache_roundtrip (world : World) (cfg : EndpointConfig)
    (ad : Adapter) (msgs : List Message) (s : ProviderSuccess) (sd : Int)
    (hres : world.resolve (providerKind cfg) = some ad)
    (hinv : ad.invoke cfg msgs = .ok s) :
    (create world msgs (some sd) ⟨[cfg], [], []⟩).result = .ok s.completion ∧
    (create world msgs (some sd)
        (create world msgs (some sd) ⟨[cfg], [], []⟩).state).result =
      .ok s.completion ∧
    (create world msgs (some sd) ⟨[cfg], [], []⟩).providerCalls = 1 ∧
    (create world msgs (some sd)
        (create world msgs (some sd) ⟨[cfg], [], []⟩).state).providerCalls
      = 0 ∧
    (create world msgs (some sd)
        (create world msgs (some sd) ⟨[cfg], [], []⟩).state).servedFromCache
      = true ∧
    (create world msgs (some sd) ⟨[cfg], [], []⟩).state.ledger =
      [(cfg.model,
        ⟨BucketCounters.add {} s.promptTokens s.completionTokens
          (ad.computeCost cfg.model s.promptTokens s.completionTokens),
         {}⟩)] ∧
    (create world msgs (some sd)
        (create world msgs (some sd) ⟨[cfg], [], []⟩).state).state.ledger =
      [(cfg.model,
        ⟨BucketCounters.add {} s.promptTokens s.completionTokens
            (ad.computeCost cfg.model s.promptTokens s.completionTokens),
          BucketCounters.add {} s.promptTokens s.completionTokens
            (ad.computeCost cfg.model s.promptTokens s.completionTokens)⟩)] := by
  simp [create, createLoop, cacheGet, cachePut, recordUsage,
    ModelUsage.record, hres, hinv, List.find?]

/-- C1 witness: the notebook's single-model joke call with cache seed 41,
evaluated concretely. -/
theorem create_cache_roundtrip_witness :
    demoWorld.resolve (providerKind demoConfig) = some demoAdapter ∧
      demoAdapter.invoke demoConfig demoMessages =
        .ok ⟨demoCompletion, 9, 32⟩ ∧
      (create demoWorld demoMessages (some 41)
          (create demoWorld demoMessages (some 41)
            ⟨[demoConfig], [], []⟩).state).servedFromCache = true ∧
      (create demoWorld demoMessages (some 41)
          (create demoWorld demoMessages (some 41)
            ⟨[demoConfig], [], []⟩).state).providerCalls = 0 :=
  ⟨rfl, rfl,
    (create_cache_roundtrip demoWorld demoConfig demoAdapter demoMessages
        ⟨demoCompletion, 9, 32⟩ 41 rfl rfl).2.2.2.2.1,
    (create_cache_roundtrip demoWorld demoConfig demoAdapter demoMessages
        ⟨demoCompletion, 9, 32⟩ 41 rfl rfl).2.2.2.1⟩

/-- C2: with two configurations where the first deterministically fails with
a recoverable error and the second succeeds, `create` tries them in strict
list order, returns the second configuration's result, and the ledger holds
exactly one actual-bucket increment, for the second model, and none for the
first. -/
theorem create_fallback_second_config (world : World)
    (cA cB : EndpointConfig) (adA adB : Adapter) (msgs : List Message)
    (e : CallFailure) (s : ProviderSuccess) (seed : Option Int)
    (hresA : world.resolve (providerKind cA) = some adA)
    (hfailA : adA.invoke cA msgs = .error e)
    (hresB : world.resolve (providerKind cB) = some adB)
    (hokB : adB.invoke cB msgs = .ok s) :
    (create world msgs seed ⟨[cA, cB], [], []⟩).result = .ok s.completion ∧
      (create world msgs seed ⟨[cA, cB], [], []⟩).tried =
        [cA.model, cB.model] ∧
      (create world msgs seed ⟨[cA, cB], [], []⟩).providerCalls = 2 ∧
      (create world msgs seed ⟨[cA, cB], [], []⟩).state.ledger =
        [(cB.model,
          ⟨BucketCounters.add {} s.promptTokens s.completionTokens
            (adB.computeCost cB.model s.promptTokens s.completionTokens),
           {}⟩)] := by
  cases seed with
  | none =>
    simp [create, createLoop, cacheGet, recordUsage, ModelUsage.record,
      hresA, hfailA, hresB, hokB, List.find?]
  | some sd =>
    simp [create, createLoop, cacheGet, cachePut, recordUsage,
      ModelUsage.record, hresA, hfailA, hresB, hokB, List.find?]

/-- C2 witness: the azure-style configuration fails under the mixed registry
and the OpenAI-compatible one answers; the ledger charges only model B. -/
theorem create_fallback_second_config_witness :
    mixedWorld.resolve (providerKind cfgA) = some failAdapter ∧
      failAdapter.invoke cfgA demoMessages =
        .error (.providerError "rate limit" true) ∧
      mixedWorld.resolve (providerKind cfgB) = some demoAdapter ∧
      demoAdapter.invoke cfgB demoMessages = .ok ⟨demoCompletion, 9, 32⟩ ∧
      (create mixedWorld demoMessages (some 41)
          ⟨[cfgA, cfgB], [], []⟩).result = .ok demoCompletion ∧
      (create mixedWorld demoMessages (some 41)
          ⟨[cfgA, cfgB], [], []⟩).tried = [cfgA.model, cfgB.model] :=
  ⟨rfl, rfl, rfl, rfl,
    (create_fallback_second_config mixedWorld cfgA cfgB failAdapter
        demoAdapter demoMessages (.providerError "rate limit" true)
        ⟨demoCompletion, 9, 32⟩ (some 41) rfl rfl rfl rfl).1,
    (create_fallback_second_config mixedWorld cfgA cfgB failAdapter
        demoAdapter demoMessages (.providerError "rate limit" true)
        ⟨demoCompletion, 9, 32⟩ (some 41) rfl rfl rfl rfl).2.1⟩

/-- C3: when every configuration fails (and nothing matching is cached),
`create` fails with an AllProvidersExhaustedError carrying the last
underlying failure, and both the Usage Ledger and the Response Cache are left
entirely unchanged. -/
theorem create_all_fail_exhausted (world : World) (msgs : List Message)
    (seed : Option Int) (cfgs : List EndpointConfig) (cache : Cache)
    (led : Ledger)
    (hf : ∀ cfg ∈ cfgs, (callFailure world cfg msgs).isSome = true)
    (hc : ∀ cfg ∈ cfgs, ∀ sd, seed = some sd →
      cacheGet cache ⟨msgs, cfg.model, sd⟩ = none) :
    (create world msgs seed ⟨cfgs, cache, led⟩).result =
        .error (.allProvidersExhausted (lastFailure world msgs none cfgs)) ∧
      (create world msgs seed ⟨cfgs, cache, led⟩).state =
        ⟨cfgs, cache, led⟩ ∧
      ∀ clast, cfgs.getLast? = some clast →
        lastFailure world msgs none cfgs = callFailure world clast msgs := by
  have h := createLoop_all_fail world msgs seed cfgs cache led none 0 [] hf hc
  refine ⟨?_, ?_, ?_⟩
  · simpa [create] using h.1
  · simp [create, h.2.1, h.2.2.1]
  · intro clast hlast
    exact lastFailure_eq_getLast world msgs cfgs none clast hlast hf

/-- C3 witness: both configurations fail under the all-fail registry; the
error carries the last rate-limit failure and the state is unchanged. -/
theorem create_all_fail_exhausted_witness :
    (create failWorld demoMessages (some 41)
        ⟨[cfgA, cfgB], [], []⟩).result =
      .error (.allProvidersExhausted
        (lastFailure failWorld demoMessages none [cfgA, cfgB])) ∧
    (create failWorld demoMessages (some 41)
        ⟨[cfgA, cfgB], [], []⟩).state.ledger = [] ∧
    (create failWorld demoMessages (some 41)
        ⟨[cfgA, cfgB], [], []⟩).state.cache = [] :=
  have h := create_all_fail_exhausted failWorld demoMessages (some 41)
    [cfgA, cfgB] [] [] (by decide) (fun cfg _ sd _ => rfl)
  ⟨h.1, congrArg ClientState.ledger h.2.1, congrArg ClientState.cache h.2.1⟩

/-- C4: with the disable-caching marker, `create` bypasses cache get and put:
the Response Cache is unchanged by any call, and with one deterministically
succeeding configuration every repeated identical call invokes the provider
again and increments only the actual-bucket counters. -/
theorem create_seed_none_bypass (world : World) (cfg : EndpointConfig)
    (ad : Adapter) (msgs : List Message) (s : ProviderSuccess)
    (hres : world.resolve (providerKind cfg) = some ad)
    (hinv : ad.invoke cfg msgs = .ok s) :
    (∀ st : ClientState, (create world msgs none st).state.cache =
      st.cache) ∧
    ∀ (cache : Cache) (led : Ledger),
      (create world msgs none ⟨[cfg], cache, led⟩).providerCalls = 1 ∧
      (create world msgs none ⟨[cfg], cache, led⟩).servedFromCache = false ∧
      (create world msgs none ⟨[cfg], cache, led⟩).state.ledger =
        recordUsage led cfg.model .actual s.promptTokens s.completionTokens
          (ad.computeCost cfg.model s.promptTokens s.completionTokens) ∧
      (create world msgs none
          (create world msgs none ⟨[cfg], cache, led⟩).state).providerCalls
        = 1 ∧
      (create world msgs none
          (create world msgs none
            ⟨[cfg], cache, led⟩).state).servedFromCache = false ∧
      (create world msgs none
          (create world msgs none ⟨[cfg], cache, led⟩).state).state.ledger =
        recordUsage
          (recordUsage led cfg.model .actual s.promptTokens
            s.completionTokens
            (ad.computeCost cfg.model s.promptTokens s.completionTokens))
          cfg.model .actual s.promptTokens s.completionTokens
          (ad.computeCost cfg.model s.promptTokens s.completionTokens) := by
  constructor
  · intro st
    simpa [create] using
      createLoop_seed_none_cache world msgs st.configs st.cache st.ledger
        none 0 []
  · intro cache led
    simp [create, createLoop, hres, hinv]

/-- C4 witness: two identical calls with the disable-marker, evaluated
concretely: the cache stays empty and each call charges the actual bucket. -/
theorem create_seed_none_bypass_witness :
    demoWorld.resolve (providerKind demoConfig) = some demoAdapter ∧
      demoAdapter.invoke demoConfig demoMessages =
        .ok ⟨demoCompletion, 9, 32⟩ ∧
      (create demoWorld demoMessages none
        ⟨[demoConfig], [], []⟩).state.cache = [] ∧
      (create demoWorld demoMessages none
          (create demoWorld demoMessages none
            ⟨[demoConfig], [], []⟩).state).providerCalls = 1 :=
  ⟨rfl, rfl,
    (create_seed_none_bypass demoWorld demoConfig demoAdapter demoMessages
        ⟨demoCompletion, 9, 32⟩ rfl rfl).1 ⟨[demoConfig], [], []⟩,
    ((create_seed_none_bypass demoWorld demoConfig demoAdapter demoMessages
        ⟨demoCompletion, 9, 32⟩ rfl rfl).2 [] []).2.2.2.1⟩

/-- C5: Usage Ledger invariant: in any session, started with an empty ledger,
in which no `create` call was served from the cache, the summary's total cost
equals the actual (non-cached) cost exactly. -/
theorem session_all_miss_total_eq_actual (world : World)
    (cfgs : List EndpointConfig) (cache0 : Cache)
    (cls : List (List Message × Option Int))
    (h : ∀ b ∈ (runSession world ⟨cfgs, cache0, []⟩ cls).2, b = false) :
    totalCost (runSession world ⟨cfgs, cache0, []⟩ cls).1.ledger =
      actualCost (runSession world ⟨cfgs, cache0, []⟩ cls).1.ledger := by
  have hc := runSession_all_miss_cachedCost world cls ⟨cfgs, cache0, []⟩ h
  rw [totalCost_eq_actual_add_cached, hc]
  simp [cachedCost]

/-- C5 witness: a concrete two-call session with caching disabled is all
misses, and its total cost equals its actual cost. -/
theorem session_all_miss_total_eq_actual_witness :
    (∀ b ∈ (runSession demoWorld ⟨[demoConfig], [], []⟩
        [(demoMessages, none), (demoMessages, none)]).2, b = false) ∧
      totalCost (runSession demoWorld ⟨[demoConfig], [], []⟩
          [(demoMessages, none), (demoMessages, none)]).1.ledger =
        actualCost (runSession demoWorld ⟨[demoConfig], [], []⟩
          [(demoMessages, none), (demoMessages, none)]).1.ledger :=
  ⟨by decide,
    session_all_miss_total_eq_actual demoWorld [demoConfig] []
      [(demoMessages, none), (demoMessages, none)] (by decide)⟩

/-- C9: no client operation mutates the caller-supplied configuration data:
in the state-passing embedding, the configuration list of the client state is
unchanged by `create` and by any session of calls. -/
theorem client_preserves_configs (world : World) :
    (∀ (st : ClientState) (msgs : List Message) (seed : Option Int),
      (create world msgs seed st).state.configs = st.configs) ∧
    ∀ (cls : List (List Message × Option Int)) (st : ClientState),
      (runSession world st cls).1.configs = st.configs := by
  have h1 : ∀ (st : ClientState) (msgs : List Message) (seed : Option Int),
      (create world msgs seed st).state.configs = st.configs :=
    fun _ _ _ => rfl
  refine ⟨h1, ?_⟩
  intro cls
  induction cls with
  | nil => intro st; rfl
  | cons c rest ih =>
    intro st
    obtain ⟨msgs, seed⟩ := c
    simp only [runSession]
    rw [ih (create world msgs seed st).state]
    exact h1 st msgs seed

/-- C10: `None` is precisely the disable-caching marker at the `create`
interface: with the marker the cache is bypassed entirely (unchanged state,
provider invoked), while any integer seed enables a cache keyed by that seed:
the successful call stores an entry fingerprinted with that seed, an
identical call under the same seed is served from the cache with no provider
call, and an identical call under a different seed is not. -/
theorem cache_seed_none_is_disable_marker (world : World)
    (cfg : EndpointConfig) (ad : Adapter) (msgs : List Message)
    (s : ProviderSuccess) (sd sd' : Int)
    (hres : world.resolve (providerKind cfg) = some ad)
    (hinv : ad.invoke cfg msgs = .ok s) (hne : sd ≠ sd') :
    (∀ st : ClientState,
      (create world msgs none st).state.cache = st.cache) ∧
    (create world msgs none ⟨[cfg], [], []⟩).providerCalls = 1 ∧
    (create world msgs none ⟨[cfg], [], []⟩).servedFromCache = false ∧
    (create world msgs (some sd) ⟨[cfg], [], []⟩).state.cache =
      [(⟨msgs, cfg.model, sd⟩,
        ⟨s.completion, s.promptTokens, s.completionTokens,
          ad.computeCost cfg.model s.promptTokens s.completionTokens⟩)] ∧
    (create world msgs (some sd)
        (create world msgs (some sd)
          ⟨[cfg], [], []⟩).state).servedFromCache = true ∧
    (create world msgs (some sd)
        (create world msgs (some sd) ⟨[cfg], [], []⟩).state).providerCalls
      = 0 ∧
    (create world msgs (some sd')
        (create world msgs (some sd)
          ⟨[cfg], [], []⟩).state).servedFromCache = false ∧
    (create world msgs (some sd')
        (create world msgs (some sd) ⟨[cfg], [], []⟩).state).providerCalls
      = 1 := by
  refine ⟨?_, ?_⟩
  · intro st
    simpa [create] using
      createLoop_seed_none_cache world msgs st.configs st.cache st.ledger
        none 0 []
  · simp [create, createLoop, cacheGet, cachePut, recordUsage,
      ModelUsage.record, hres, hinv, List.find?, hne]

/-- C10 witness: seeds 41 and 7, evaluated concretely on the notebook's
example call. -/
theorem cache_seed_none_is_disable_marker_witness :
    demoWorld.resolve (providerKind demoConfig) = some demoAdapter ∧
      demoAdapter.invoke demoConfig demoMessages =
        .ok ⟨demoCompletion, 9, 32⟩ ∧
      (41 : Int) ≠ 7 ∧
      (create demoWorld demoMessages none
        ⟨[demoConfig], [], []⟩).state.cache = [] ∧
      (create demoWorld demoMessages (some 7)
          (create demoWorld demoMessages (some 41)
            ⟨[demoConfig], [], []⟩).state).servedFromCache = false :=
  ⟨rfl, rfl, by decide,
    (cache_seed_none_is_disable_marker demoWorld demoConfig demoAdapter
        demoMessages ⟨demoCompletion, 9, 32⟩ 41 7 rfl rfl
        (by decide)).1 ⟨[demoConfig], [], []⟩,
    (cache_seed_none_is_disable_marker demoWorld demoConfig demoAdapter
        demoMessages ⟨demoCompletion, 9, 32⟩ 41 7 rfl rfl
        (by decide)).2.2.2.2.2.2.1⟩

/-- C8 witness: the concrete environment-variable source resolves through the
file named by the variable and loads successfully. -/
theorem load_config_error_iff_witness :
    load demoFs demoParse (ConfigSource.envVar "OAI_CONFIG_LIST") =
      .ok ([demoRaw].map toConfig) :=
  (load_config_error_iff demoFs demoParse
      (ConfigSource.envVar "OAI_CONFIG_LIST")).2.1 [demoRaw] rfl rfl

end AG2
